import Mathlib

/-
Verification of the Bang-Apps prayer-time / qibla specification.

The repository ships the React frontend (frontend/src/App.js) together with a
spec of the backend calculation engine (solar position, prayer-time derivation,
qibla bearing, time formatting).  The backend source itself is not part of the
tree, so the engine below is modelled from the spec; the frontend state machine
is embedded directly from App.js.
-/

namespace BangApps

open Real

/-- Error taxonomy of the engine (spec section 7): malformed input versus an
astronomically undefined event at extreme latitude or season. -/
inductive EngineError where
  | invalidInput
  | unreachableHorizon
deriving DecidableEq

/-- A geographic coordinate in decimal degrees (spec section 3). -/
structure Coordinate where
  latitude : ℚ
  longitude : ℚ
deriving DecidableEq

/-- Validity of a coordinate: latitude in [-90, 90], longitude in [-180, 180];
out-of-range values are rejected, never clamped (spec section 3). -/
def Coordinate.Valid (c : Coordinate) : Prop :=
  -90 ≤ c.latitude ∧ c.latitude ≤ 90 ∧ -180 ≤ c.longitude ∧ c.longitude ≤ 180

instance (c : Coordinate) : Decidable c.Valid := by
  unfold Coordinate.Valid; infer_instance

/-- A calendar date. -/
structure Date where
  year : ℕ
  month : ℕ
  day : ℕ
deriving DecidableEq

def isLeapYear (y : ℕ) : Bool :=
  (y % 4 == 0 && y % 100 != 0) || y % 400 == 0

def daysInMonth (y m : ℕ) : ℕ :=
  if m = 2 then (if isLeapYear y then 29 else 28)
  else if m = 4 ∨ m = 6 ∨ m = 9 ∨ m = 11 then 30
  else 31

/-- Validity of a calendar date (spec section 4.1). -/
def Date.Valid (d : Date) : Prop :=
  1 ≤ d.month ∧ d.month ≤ 12 ∧ 1 ≤ d.day ∧ d.day ≤ daysInMonth d.year d.month

instance (d : Date) : Decidable d.Valid := by
  unfold Date.Valid; infer_instance

/-- Day-of-year N of a date. -/
def dayOfYear (d : Date) : ℕ :=
  (List.range (d.month - 1)).foldl (fun acc m => acc + daysInMonth d.year (m + 1)) 0 + d.day

/-- Degrees to radians. -/
noncomputable def deg2rad (x : ℝ) : ℝ := x * π / 180

/-- Modelled from the spec: the solar mean anomaly of the standard low-precision
solar ephemeris approximation (spec section 4.1; the backend source is missing
from the tree). In degrees. -/
noncomputable def meanAnomalyDeg (n : ℕ) : ℝ := 357.5291 + 0.98560028 * n

/-- Modelled from the spec: the ecliptic longitude obtained from the mean
anomaly by the standard equation-of-center correction (spec section 4.1). In
degrees. -/
noncomputable def eclipticLongitudeDeg (n : ℕ) : ℝ :=
  meanAnomalyDeg n + 1.9148 * sin (deg2rad (meanAnomalyDeg n))
    + 0.02 * sin (2 * deg2rad (meanAnomalyDeg n)) + 282.9372

/-- Obliquity of the ecliptic, degrees. -/
noncomputable def obliquityDeg : ℝ := 23.4397

/-- Modelled from the spec: solar declination in degrees, derived via
asin (sin eclipticLongitude * sin obliquity) (spec section 4.1). -/
noncomputable def declinationDeg (d : Date) : ℝ :=
  (180 / π) * arcsin (sin (deg2rad (eclipticLongitudeDeg (dayOfYear d))) * sin (deg2rad obliquityDeg))

/-- Modelled from the spec: the equation of time in minutes, by the standard
Fourier approximation in the day-of-year (spec section 4.1). -/
noncomputable def equationOfTimeMinutes (d : Date) : ℝ :=
  9.87 * sin (2 * deg2rad (360 * ((dayOfYear d : ℝ) - 81) / 365))
    - 7.53 * cos (deg2rad (360 * ((dayOfYear d : ℝ) - 81) / 365))
    - 1.5 * sin (deg2rad (360 * ((dayOfYear d : ℝ) - 81) / 365))

/-- The purely functional output of the solar position calculator
(spec section 3). -/
structure SolarDay where
  declination : ℝ
  equationOfTimeMinutes : ℝ

/-- Modelled from the spec: SolarPositionCalculator.compute (the backend source
is missing from the tree).  Rejects invalid calendar dates, otherwise returns
declination and equation of time (spec section 4.1). -/
noncomputable def SolarPositionCalculator.compute (d : Date) (_longitude : ℚ) :
    Except EngineError SolarDay :=
  if d.Valid then .ok ⟨declinationDeg d, equationOfTimeMinutes d⟩
  else .error .invalidInput

/-- Observer latitude in radians. -/
noncomputable def latRad (c : Coordinate) : ℝ := deg2rad (c.latitude : ℝ)

/-- Solar declination of a date, in radians. -/
noncomputable def decRad (d : Date) : ℝ := deg2rad (declinationDeg d)

/-- Argument of the acos in the hour-angle formula
H = acos ((sin angle - sin lat * sin dec) / (cos lat * cos dec))
(spec section 4.2); targetSin is the sine of the target solar elevation. -/
noncomputable def eventArg (targetSin lat dec : ℝ) : ℝ :=
  (targetSin - sin lat * sin dec) / (cos lat * cos dec)

/-- The hour angle of an event (radians from solar noon), spec section 4.2. -/
noncomputable def eventHourAngle (targetSin lat dec : ℝ) : ℝ :=
  arccos (eventArg targetSin lat dec)

/-- The sun reaches the target elevation during the day: the acos argument of
the hour-angle formula lies strictly inside [-1, 1].  The grazing boundary, in
which the sun only touches the target angle and the strict schedule ordering of
spec section 3 cannot hold, is treated as unreachable. -/
def Reachable (targetSin lat dec : ℝ) : Prop :=
  |targetSin - sin lat * sin dec| < cos lat * cos dec

/-- Depression angle for sunrise and sunset, degrees: apparent solar radius
plus atmospheric refraction (spec section 4.2). -/
noncomputable def horizonDepressionDeg : ℝ := 0.833

/-- Sine of the target elevation for sunrise and maghrib. -/
noncomputable def sunriseSunsetTarget : ℝ := sin (deg2rad (-horizonDepressionDeg))

/-- Sine of the target elevation of a twilight event with the given depression
angle in degrees (fajr and isha, spec section 4.2). -/
noncomputable def twilightTarget (angleDeg : ℝ) : ℝ := sin (deg2rad (-angleDeg))

/-- Modelled from the spec: the asr solar altitude by the shadow-length method
of spec section 4.2, the elevation whose cotangent is tan 1 + tan |lat - dec|. -/
noncomputable def asrAltitude (lat dec : ℝ) : ℝ :=
  arctan (1 / (tan 1 + tan |lat - dec|))

/-- Sine of the asr target elevation. -/
noncomputable def asrTarget (lat dec : ℝ) : ℝ := sin (asrAltitude lat dec)

/-- All daily events are astronomically defined: the three acos-based targets
are reachable, and the noon sun is above the horizon so that the shadow-length
method for asr is meaningful (|lat - dec| < 90 degrees). -/
def ReachableAll (lat dec fajrAngle ishaAngle : ℝ) : Prop :=
  Reachable sunriseSunsetTarget lat dec ∧
  Reachable (twilightTarget fajrAngle) lat dec ∧
  Reachable (twilightTarget ishaAngle) lat dec ∧
  |lat - dec| < π / 2

/-- The six daily events as local clock times in fractional hours
(spec section 3). -/
structure PrayerSchedule where
  fajr : ℝ
  sunrise : ℝ
  dhuhr : ℝ
  asr : ℝ
  maghrib : ℝ
  isha : ℝ

/-- Hours per radian of hour angle: H / 15 hours with H in degrees
(spec section 4.2). -/
noncomputable def hoursPerRadian : ℝ := 12 / π

/-- Solar noon as local clock time: 12:00 apparent time corrected by
(standardMeridian - longitude) / 15 - equationOfTime / 60, with the standard
meridian at 15 degrees per hour of UTC offset (spec section 4.2). -/
noncomputable def solarNoon (d : Date) (c : Coordinate) (utcOffsetMinutes : ℚ) : ℝ :=
  12 + ((utcOffsetMinutes : ℝ) / 4 - (c.longitude : ℝ)) / 15 - equationOfTimeMinutes d / 60

/-- The schedule built from the hour angles of the individual events
(spec section 4.2). -/
noncomputable def scheduleOf (d : Date) (c : Coordinate)
    (utcOffsetMinutes fajrAngleDeg ishaAngleDeg : ℚ) : PrayerSchedule :=
  { fajr := solarNoon d c utcOffsetMinutes -
      hoursPerRadian * eventHourAngle (twilightTarget (fajrAngleDeg : ℝ)) (latRad c) (decRad d)
    sunrise := solarNoon d c utcOffsetMinutes -
      hoursPerRadian * eventHourAngle sunriseSunsetTarget (latRad c) (decRad d)
    dhuhr := solarNoon d c utcOffsetMinutes
    asr := solarNoon d c utcOffsetMinutes +
      hoursPerRadian * eventHourAngle (asrTarget (latRad c) (decRad d)) (latRad c) (decRad d)
    maghrib := solarNoon d c utcOffsetMinutes +
      hoursPerRadian * eventHourAngle sunriseSunsetTarget (latRad c) (decRad d)
    isha := solarNoon d c utcOffsetMinutes +
      hoursPerRadian * eventHourAngle (twilightTarget (ishaAngleDeg : ℝ)) (latRad c) (decRad d) }

open Classical in
/-- Modelled from the spec: PrayerTimeDeriver.derive (the backend source is
missing from the tree).  Validates the coordinate and the date, then either
derives the six events via the hour-angle formula or fails with the typed
UnreachableHorizonError when an event is astronomically undefined
(spec sections 4.2 and 7). -/
noncomputable def PrayerTimeDeriver.derive (d : Date) (c : Coordinate)
    (utcOffsetMinutes fajrAngleDeg ishaAngleDeg : ℚ) :
    Except EngineError PrayerSchedule :=
  if c.Valid ∧ d.Valid then
    if ReachableAll (latRad c) (decRad d) (fajrAngleDeg : ℝ) (ishaAngleDeg : ℝ) then
      .ok (scheduleOf d c utcOffsetMinutes fajrAngleDeg ishaAngleDeg)
    else .error .unreachableHorizon
  else .error .invalidInput

/-- The fixed Kaaba coordinate (spec section 4.3). -/
def kaaba : Coordinate := ⟨21.4225, 39.8262⟩

/-- Two-argument arctangent: the argument of the complex number x + y i,
valued in (-pi, pi]. -/
noncomputable def atan2 (y x : ℝ) : ℝ := Complex.arg ⟨x, y⟩

/-- Real modulus used by the bearing normalization (spec section 4.3); for a
positive dividend it agrees with the remainder operator of the source
language. -/
noncomputable def jsMod (a b : ℝ) : ℝ := a - b * ⌊a / b⌋

/-- Longitude difference from the observer to the Kaaba, radians. -/
noncomputable def deltaLonRad (c : Coordinate) : ℝ :=
  deg2rad ((kaaba.longitude : ℝ) - (c.longitude : ℝ))

/-- Modelled from the spec: the great-circle initial bearing angle
theta = atan2 (sin dLon * cos lat2, cos lat1 * sin lat2 - sin lat1 * cos lat2 * cos dLon)
(spec section 4.3). -/
noncomputable def bearingTheta (c : Coordinate) : ℝ :=
  atan2 (sin (deltaLonRad c) * cos (latRad kaaba))
    (cos (latRad c) * sin (latRad kaaba) -
      sin (latRad c) * cos (latRad kaaba) * cos (deltaLonRad c))

/-- The bearing normalized to [0, 360) via (theta * 180 / pi + 360) mod 360
(spec section 4.3). -/
noncomputable def bearingValue (c : Coordinate) : ℝ :=
  jsMod (bearingTheta c * 180 / π + 360) 360

/-- Modelled from the spec: QiblaBearingCalculator.bearing (the backend source
is missing from the tree).  Input validation rejects out-of-range coordinates
and the degenerate Kaaba coordinate itself (spec sections 4.3 and 8). -/
noncomputable def QiblaBearingCalculator.bearing (c : Coordinate) : Except EngineError ℝ :=
  if c.Valid then
    if c = kaaba then .error .invalidInput else .ok (bearingValue c)
  else .error .invalidInput

/-- A derived schedule with the six event times in minutes of the day, the
form consumed by current-prayer classification (spec section 4.2). -/
structure ClockSchedule where
  fajr : ℕ
  sunrise : ℕ
  dhuhr : ℕ
  asr : ℕ
  maghrib : ℕ
  isha : ℕ
deriving DecidableEq

/-- The strict ordering invariant of a schedule (spec section 3). -/
def ClockSchedule.Sorted (s : ClockSchedule) : Prop :=
  s.fajr < s.sunrise ∧ s.sunrise < s.dhuhr ∧ s.dhuhr < s.asr ∧
    s.asr < s.maghrib ∧ s.maghrib < s.isha

instance (s : ClockSchedule) : Decidable s.Sorted := by
  unfold ClockSchedule.Sorted; infer_instance

/-- The six named events of a schedule. -/
def ClockSchedule.events (s : ClockSchedule) : List (String × ℕ) :=
  [("fajr", s.fajr), ("sunrise", s.sunrise), ("dhuhr", s.dhuhr),
   ("asr", s.asr), ("maghrib", s.maghrib), ("isha", s.isha)]

/-- Modelled from the spec: current-prayer classification (the backend source
is missing from the tree).  Given wall-clock minutes t, the event with the
greatest time not exceeding t; before fajr the previous day's isha wraparound
window applies (spec section 4.2). -/
def currentPrayer (s : ClockSchedule) (t : ℕ) : String :=
  if t < s.fajr then "isha"
  else if t < s.sunrise then "fajr"
  else if t < s.dhuhr then "sunrise"
  else if t < s.asr then "dhuhr"
  else if t < s.maghrib then "asr"
  else if t < s.isha then "maghrib"
  else "isha"

/-- The named event is one of the schedule's events, its time is at most t,
and no event time that is at most t exceeds it. -/
def IsGreatestEventLE (s : ClockSchedule) (t : ℕ) (name : String) : Prop :=
  ∃ et, (name, et) ∈ s.events ∧ et ≤ t ∧ ∀ p ∈ s.events, p.2 ≤ t → p.2 ≤ et

/-- The schedule of the classification example in spec section 8:
fajr 04:10, sunrise 05:45, dhuhr 12:15, asr 15:50, maghrib 18:40, isha 20:10. -/
def exampleSchedule : ClockSchedule := ⟨250, 345, 735, 950, 1120, 1210⟩

/-- A locale table for the 12-hour formatting step: the language-appropriate
ante- and post-meridiem markers (spec sections 4.2 and 9). -/
structure Locale where
  amMarker : String
  pmMarker : String

/-- A localized 12-hour clock reading. -/
structure Time12 where
  hour : ℕ
  minute : ℕ
  marker : String
deriving DecidableEq

/-- Hour on the 12-hour dial of a 24-hour hour value. -/
def to12Hour (h : ℕ) : ℕ := if h % 12 = 0 then 12 else h % 12

/-- Modelled from the spec: the pure formatting step from a derived 24-hour
time (as minutes of the day) to its localized 12-hour representation,
parameterized by the locale (spec section 4.2; the backend source is missing
from the tree). -/
def format12 (loc : Locale) (minutesOfDay : ℕ) : Time12 :=
  ⟨to12Hour (minutesOfDay / 60), minutesOfDay % 60,
    if minutesOfDay / 60 < 12 then loc.amMarker else loc.pmMarker⟩

/-- Modelled from the spec: parsing a localized 12-hour representation back to
minutes of the day; an unknown marker fails (spec section 8 round-trip
property). -/
def parse12 (loc : Locale) (t : Time12) : Option ℕ :=
  if t.marker = loc.amMarker then some (t.hour % 12 * 60 + t.minute)
  else if t.marker = loc.pmMarker then some ((t.hour % 12 + 12) * 60 + t.minute)
  else none

/-- A city entry of the cities API (App.js lines 97-108, 206-216). -/
structure City where
  id : String
  name : String
  lat : ℚ
  lng : ℚ
deriving DecidableEq

/-- Body of a prayer-times API response (App.js lines 110-122, 267-322). -/
structure PrayerTimesResponse where
  fajr : String
  sunrise : String
  dhuhr : String
  asr : String
  maghrib : String
  isha : String
  current_prayer : String
deriving DecidableEq

/-- Body of a qibla API response (App.js lines 124-136, 446, 459). -/
structure QiblaResponse where
  qibla_direction : ℚ
deriving DecidableEq

/-- A dua entry (App.js lines 483-499). -/
structure Dua where
  id : ℕ
  arabic : String
  kurdish : String
deriving DecidableEq

/-- Body of the duas API response (App.js lines 138-146). -/
structure DuasResponse where
  morning_duas : List Dua
  evening_duas : List Dua
deriving DecidableEq

/-- A surah list entry (App.js lines 552-557). -/
structure Surah where
  number : ℕ
  name_kurdish : String
  name_arabic : String
  verses_count : ℕ
deriving DecidableEq

/-- A selected-surah response (App.js lines 168-178, 563-631). -/
structure SurahDetail where
  number : ℕ
  total_verses : ℕ
deriving DecidableEq

/-- The settings object (App.js lines 180-204, 636-763). -/
structure Settings where
  theme : String
  font_size : String
  arabic_font : String
  prayer_notifications : Bool
  prayer_sound : Bool
  hijri_calendar : Bool
deriving DecidableEq

/-- The component state of the App component: one field per useState hook
(App.js lines 5-15). -/
structure AppState where
  language : String
  activeTab : String
  cities : List City
  selectedCity : Option City
  prayerTimes : Option PrayerTimesResponse
  qiblaDirection : Option QiblaResponse
  duas : Option DuasResponse
  quranSurahs : List Surah
  selectedSurah : Option SurahDetail
  settings : Option Settings
  loading : Bool

/-- The fetch helpers of the App component. -/
inductive FetchAction where
  | cities
  | prayerTimes
  | qiblaDirection
  | duas
  | quranVerses
  | quranSurahs
  | surah
  | settings
  | updateSettings
deriving DecidableEq

/-- The fetches run by the effect whose dependency array is [language]
(App.js lines 90-95): a language change re-runs exactly these. -/
def effectsOnLanguageChange : List FetchAction :=
  [.cities, .duas, .quranSurahs, .settings]

/-- Every fetch helper invocation reachable in the component: the [language]
effect (App.js lines 90-95), handleCityChange (lines 211-215),
handleSurahChange (line 221), handleTabChange (lines 231-235) and
handleSaveSettings (line 651). -/
def invokedFetchActions : List FetchAction :=
  [.cities, .duas, .quranSurahs, .settings,
   .prayerTimes, .qiblaDirection,
   .surah,
   .prayerTimes, .qiblaDirection,
   .updateSettings]

/-- Body of a cities API response; the cities field may be absent
(data.cities || [], App.js line 101). -/
structure CitiesResponse where
  cities : Option (List City)

/-- The state update performed by fetchCities on a successful response
(App.js lines 100-104): store the city list and clear the selected city, the
prayer times and the qibla direction. -/
def fetchCitiesSuccess (resp : CitiesResponse) (s : AppState) : AppState :=
  { s with
    cities := resp.cities.getD []
    selectedCity := none
    prayerTimes := none
    qiblaDirection := none }

/-- The state setters defined by the component's useState hooks
(App.js lines 5-15). -/
def definedStateSetters : List String :=
  ["setLanguage", "setActiveTab", "setCities", "setSelectedCity",
   "setPrayerTimes", "setQiblaDirection", "setDuas", "setQuranSurahs",
   "setSelectedSurah", "setSettings", "setLoading"]

/-- Result of executing a piece of JavaScript: normal completion or a thrown
exception. -/
inductive JsOutcome (α : Type) where
  | ok (value : α)
  | thrown (message : String)

/-- Body of a quran verses API response (App.js line 152). -/
structure QuranVersesResponse where
  verses : Option (List String)

/-- The try-block of fetchQuranVerses (App.js lines 149-152): the fetch and
the json decoding succeed, after which the call to the identifier
setQuranVerses, which no useState hook defines, throws a ReferenceError
before any state changes. -/
def fetchQuranVersesBody (_resp : QuranVersesResponse) (s : AppState) : JsOutcome AppState :=
  if "setQuranVerses" ∈ definedStateSetters then .ok s
  else .thrown ("ReferenceError: setQuranVerses is not defined")

/-- fetchQuranVerses with its surrounding try/catch (App.js lines 148-156):
a thrown error is caught and written to the console log, which is the second
component of the result. -/
def fetchQuranVersesRun (resp : QuranVersesResponse) (s : AppState) : AppState × List String :=
  match fetchQuranVersesBody resp s with
  | .ok s2 => (s2, [])
  | .thrown msg => (s, ["Error fetching quran verses: " ++ msg])

/-- Any real divided into floor-remainder by a positive modulus lands in
[0, modulus). -/
theorem jsMod_mem_Ico (a b : ℝ) (hb : 0 < b) : 0 ≤ jsMod a b ∧ jsMod a b < b := by
  have hbne : b ≠ 0 := ne_of_gt hb
  have h : jsMod a b = b * Int.fract (a / b) := by
    unfold jsMod Int.fract
    rw [mul_sub, mul_div_cancel₀ a hbne]
  refine ⟨?_, ?_⟩
  · rw [h]
    exact mul_nonneg hb.le (Int.fract_nonneg _)
  · rw [h]
    calc b * Int.fract (a / b) < b * 1 := by
          exact mul_lt_mul_of_pos_left (Int.fract_lt_one _) hb
      _ = b := mul_one b

/-- Every event of a schedule with time at most t is bounded by et, given the
six per-field bounds. -/
theorem events_bounded {s : ClockSchedule} {t et : ℕ}
    (hf : s.fajr ≤ t → s.fajr ≤ et) (hsu : s.sunrise ≤ t → s.sunrise ≤ et)
    (hdh : s.dhuhr ≤ t → s.dhuhr ≤ et) (ha : s.asr ≤ t → s.asr ≤ et)
    (hm : s.maghrib ≤ t → s.maghrib ≤ et) (hi : s.isha ≤ t → s.isha ≤ et) :
    ∀ p ∈ s.events, p.2 ≤ t → p.2 ≤ et := by
  intro p hp
  simp only [ClockSchedule.events, List.mem_cons, List.not_mem_nil, or_false] at hp
  rcases hp with h | h | h | h | h | h <;> subst h <;> dsimp <;> assumption

/-- A reachable target has cos lat * cos dec positive. -/
theorem Reachable.denom_pos {t lat dec : ℝ} (h : Reachable t lat dec) :
    0 < cos lat * cos dec :=
  (abs_nonneg _).trans_lt h

/-- A reachable target's acos argument is below one. -/
theorem Reachable.arg_lt_one {t lat dec : ℝ} (h : Reachable t lat dec) :
    eventArg t lat dec < 1 := by
  unfold eventArg
  rw [div_lt_one h.denom_pos]
  exact lt_of_abs_lt h

/-- A reachable target's acos argument is above minus one. -/
theorem Reachable.neg_one_lt_arg {t lat dec : ℝ} (h : Reachable t lat dec) :
    -1 < eventArg t lat dec := by
  unfold eventArg
  rw [lt_div_iff₀ h.denom_pos]
  have h2 := neg_lt_of_abs_lt h
  linarith

/-- The hour angle of a reachable target is positive. -/
theorem Reachable.hourAngle_pos {t lat dec : ℝ} (h : Reachable t lat dec) :
    0 < eventHourAngle t lat dec :=
  Real.arccos_pos.mpr h.arg_lt_one

/-- The hour angle of a reachable target is below pi. -/
theorem Reachable.hourAngle_lt_pi {t lat dec : ℝ} (h : Reachable t lat dec) :
    eventHourAngle t lat dec < π := by
  refine lt_of_le_of_ne (Real.arccos_le_pi _) fun he => ?_
  exact absurd (Real.arccos_eq_pi.mp he) (not_le.mpr h.neg_one_lt_arg)

/-- A lower target elevation has a larger hour angle. -/
theorem hourAngle_strictAnti {t1 t2 lat dec : ℝ}
    (h1 : Reachable t1 lat dec) (h2 : Reachable t2 lat dec) (hlt : t1 < t2) :
    eventHourAngle t2 lat dec < eventHourAngle t1 lat dec := by
  unfold eventHourAngle
  apply Real.strictAntiOn_arccos
    (Set.mem_Icc.mpr ⟨h1.neg_one_lt_arg.le, h1.arg_lt_one.le⟩)
    (Set.mem_Icc.mpr ⟨h2.neg_one_lt_arg.le, h2.arg_lt_one.le⟩)
  unfold eventArg
  rw [div_lt_div_iff_of_pos_right h1.denom_pos]
  linarith

/-- The sunrise and sunset target elevation sine is negative. -/
theorem sunriseSunsetTarget_neg : sunriseSunsetTarget < 0 := by
  unfold sunriseSunsetTarget horizonDepressionDeg deg2rad
  have h1 : (0 : ℝ) < 0.833 * π / 180 := by positivity
  have h2 : (0.833 : ℝ) * π / 180 < π := by
    nlinarith [Real.pi_pos]
  have h3 := Real.sin_pos_of_pos_of_lt_pi h1 h2
  rw [neg_mul, neg_div, Real.sin_neg]
  linarith

/-- A twilight depression angle strictly deeper than the sunrise depression
and at most 90 degrees has a strictly lower target elevation sine. -/
theorem twilight_lt_sunrise_target {a : ℝ} (h1 : 0.833 < a) (h2 : a ≤ 90) :
    twilightTarget a < sunriseSunsetTarget := by
  have hpi := Real.pi_pos
  have hmul1 := mul_le_mul_of_nonneg_right h2 hpi.le
  have hmul2 := mul_lt_mul_of_pos_right h1 hpi
  unfold twilightTarget sunriseSunsetTarget horizonDepressionDeg deg2rad
  refine Real.strictMonoOn_sin (Set.mem_Icc.mpr ⟨?_, ?_⟩) (Set.mem_Icc.mpr ⟨?_, ?_⟩) ?_
  · linarith
  · linarith
  · linarith
  · linarith
  · linarith

/-- The tangent of one radian is positive. -/
theorem tan_one_pos : 0 < tan 1 :=
  Real.tan_pos_of_pos_of_lt_pi_div_two one_pos (by linarith [Real.pi_gt_three])

/-- While the noon sun is above the horizon, the asr altitude is positive. -/
theorem asrAltitude_pos {lat dec : ℝ} (hd : |lat - dec| < π / 2) :
    0 < asrAltitude lat dec := by
  unfold asrAltitude
  have h1 : 0 ≤ tan |lat - dec| :=
    Real.tan_nonneg_of_nonneg_of_le_pi_div_two (abs_nonneg _) hd.le
  have h2 : 0 < tan 1 + tan |lat - dec| := by linarith [tan_one_pos]
  have h3 : 0 < 1 / (tan 1 + tan |lat - dec|) := by positivity
  calc (0 : ℝ) = arctan 0 := Real.arctan_zero.symm
    _ < arctan (1 / (tan 1 + tan |lat - dec|)) := Real.arctan_strictMono h3

/-- The asr altitude stays below the noon altitude. -/
theorem asrAltitude_lt_noon {lat dec : ℝ} (hd : |lat - dec| < π / 2) :
    asrAltitude lat dec < π / 2 - |lat - dec| := by
  rcases eq_or_lt_of_le (abs_nonneg (lat - dec)) with h0 | h0
  · rw [← h0, sub_zero]
    exact Real.arctan_lt_pi_div_two _
  · have htd : 0 < tan |lat - dec| := Real.tan_pos_of_pos_of_lt_pi_div_two h0 hd
    have heq : π / 2 - |lat - dec| = arctan ((tan |lat - dec|)⁻¹) := by
      rw [← Real.tan_pi_div_two_sub]
      exact (Real.arctan_tan (by linarith [Real.pi_pos]) (by linarith)).symm
    rw [heq]
    unfold asrAltitude
    apply Real.arctan_strictMono
    rw [inv_eq_one_div]
    exact one_div_lt_one_div_of_lt htd (by linarith [tan_one_pos])

/-- The asr target elevation sine is positive. -/
theorem asrTarget_pos {lat dec : ℝ} (hd : |lat - dec| < π / 2) :
    0 < asrTarget lat dec := by
  unfold asrTarget
  apply Real.sin_pos_of_pos_of_lt_pi (asrAltitude_pos hd)
  have h := asrAltitude_lt_noon hd
  have h0 := abs_nonneg (lat - dec)
  linarith [Real.pi_pos]

/-- The asr target elevation sine stays below cos (lat - dec). -/
theorem asrTarget_lt_cos_sub {lat dec : ℝ} (hd : |lat - dec| < π / 2) :
    asrTarget lat dec < cos (lat - dec) := by
  have h1 := asrAltitude_lt_noon hd
  have h2 := asrAltitude_pos hd
  have h0 := abs_nonneg (lat - dec)
  have hpi := Real.pi_pos
  have hs := Real.strictMonoOn_sin
    (Set.mem_Icc.mpr ⟨by linarith, by linarith⟩)
    (Set.mem_Icc.mpr ⟨by linarith, by linarith⟩) h1
  rw [Real.sin_pi_div_two_sub, Real.cos_abs] at hs
  unfold asrTarget
  exact hs

/-- Sunrise reachability forces cos (lat + dec) to be positive. -/
theorem cos_add_pos_of_sunrise_reachable {lat dec : ℝ}
    (hr : Reachable sunriseSunsetTarget lat dec) : 0 < cos (lat + dec) := by
  have hneg := neg_lt_of_abs_lt hr
  have hst := sunriseSunsetTarget_neg
  rw [Real.cos_add]
  linarith

/-- The asr target is reachable whenever sunset is reachable and the noon sun
is above the horizon. -/
theorem asr_reachable {lat dec : ℝ}
    (hr : Reachable sunriseSunsetTarget lat dec) (hd : |lat - dec| < π / 2) :
    Reachable (asrTarget lat dec) lat dec := by
  unfold Reachable
  rw [abs_lt]
  have h1 := cos_add_pos_of_sunrise_reachable hr
  have h2 := asrTarget_pos hd
  have h3 := asrTarget_lt_cos_sub hd
  rw [Real.cos_add] at h1
  rw [Real.cos_sub] at h3
  constructor <;> linarith

/-- C1: for every valid coordinate and valid date (and twilight depression
angles strictly deeper than the sunrise depression), derive either fails with
the typed UnreachableHorizonError or returns a schedule whose six events are
strictly increasing: fajr < sunrise < dhuhr < asr < maghrib < isha. -/
theorem C1_schedule_strictly_ordered_or_horizon_error (d : Date) (c : Coordinate)
    (off fA iA : ℚ) (hc : c.Valid) (hd : d.Valid)
    (hf1 : (0.833 : ℚ) < fA) (hf2 : fA ≤ 90) (hi1 : (0.833 : ℚ) < iA) (hi2 : iA ≤ 90) :
    PrayerTimeDeriver.derive d c off fA iA = .error .unreachableHorizon ∨
    ∃ s : PrayerSchedule,
      PrayerTimeDeriver.derive d c off fA iA = .ok s ∧
      s.fajr < s.sunrise ∧ s.sunrise < s.dhuhr ∧ s.dhuhr < s.asr ∧
      s.asr < s.maghrib ∧ s.maghrib < s.isha := by
  unfold PrayerTimeDeriver.derive
  rw [if_pos ⟨hc, hd⟩]
  by_cases hra : ReachableAll (latRad c) (decRad d) (fA : ℝ) (iA : ℝ)
  · rw [if_pos hra]
    right
    obtain ⟨hrs, hrf, hri, hdlt⟩ := hra
    have hf1' : (0.833 : ℝ) < (fA : ℝ) := by
      have h := (Rat.cast_lt (K := ℝ)).mpr hf1
      rwa [Rat.cast_ofScientific] at h
    have hf2' : (fA : ℝ) ≤ 90 := by exact_mod_cast hf2
    have hi1' : (0.833 : ℝ) < (iA : ℝ) := by
      have h := (Rat.cast_lt (K := ℝ)).mpr hi1
      rwa [Rat.cast_ofScientific] at h
    have hi2' : (iA : ℝ) ≤ 90 := by exact_mod_cast hi2
    have hk : 0 < hoursPerRadian := by
      unfold hoursPerRadian
      positivity
    have hras := asr_reachable hrs hdlt
    have hHsr := hrs.hourAngle_pos
    have hHasr := hras.hourAngle_pos
    have hFa : eventHourAngle sunriseSunsetTarget (latRad c) (decRad d) <
        eventHourAngle (twilightTarget (fA : ℝ)) (latRad c) (decRad d) :=
      hourAngle_strictAnti hrf hrs (twilight_lt_sunrise_target hf1' hf2')
    have hIa : eventHourAngle sunriseSunsetTarget (latRad c) (decRad d) <
        eventHourAngle (twilightTarget (iA : ℝ)) (latRad c) (decRad d) :=
      hourAngle_strictAnti hri hrs (twilight_lt_sunrise_target hi1' hi2')
    have hAsr : eventHourAngle (asrTarget (latRad c) (decRad d)) (latRad c) (decRad d) <
        eventHourAngle sunriseSunsetTarget (latRad c) (decRad d) :=
      hourAngle_strictAnti hrs hras
        (lt_trans sunriseSunsetTarget_neg (asrTarget_pos hdlt))
    have m1 := mul_lt_mul_of_pos_left hFa hk
    have m2 := mul_lt_mul_of_pos_left hIa hk
    have m3 := mul_lt_mul_of_pos_left hAsr hk
    have m4 := mul_pos hk hHsr
    have m5 := mul_pos hk hHasr
    refine ⟨_, rfl, ?_, ?_, ?_, ?_, ?_⟩ <;> simp only [scheduleOf] <;> linarith
  · rw [if_neg hra]
    left
    rfl

/-- Witness for C1 at Erbil on the 2024 March equinox with 18-degree twilight
angles. -/
theorem C1_schedule_strictly_ordered_witness :
    PrayerTimeDeriver.derive ⟨2024, 3, 20⟩ ⟨36.19, 44.01⟩ 180 18 18 =
      .error .unreachableHorizon ∨
    ∃ s : PrayerSchedule,
      PrayerTimeDeriver.derive ⟨2024, 3, 20⟩ ⟨36.19, 44.01⟩ 180 18 18 = .ok s ∧
      s.fajr < s.sunrise ∧ s.sunrise < s.dhuhr ∧ s.dhuhr < s.asr ∧
      s.asr < s.maghrib ∧ s.maghrib < s.isha :=
  C1_schedule_strictly_ordered_or_horizon_error ⟨2024, 3, 20⟩ ⟨36.19, 44.01⟩ 180 18 18
    (by norm_num [Coordinate.Valid]) (by decide)
    (by norm_num) (by norm_num) (by norm_num) (by norm_num)

/-- C4: any coordinate with latitude outside [-90, 90] or longitude outside
[-180, 180] is rejected with InvalidInputError by both the prayer-time and the
qibla operations; it is never clamped into range. -/
theorem C4_out_of_range_coordinate_rejected (c : Coordinate) (h : ¬ c.Valid)
    (d : Date) (off fA iA : ℚ) :
    PrayerTimeDeriver.derive d c off fA iA = .error .invalidInput ∧
    QiblaBearingCalculator.bearing c = .error .invalidInput := by
  constructor
  · unfold PrayerTimeDeriver.derive
    rw [if_neg (fun hv => h hv.1)]
  · unfold QiblaBearingCalculator.bearing
    rw [if_neg h]

/-- Witness for C4 at latitude 95, longitude 200. -/
theorem C4_out_of_range_coordinate_rejected_witness :
    PrayerTimeDeriver.derive ⟨2024, 1, 1⟩ ⟨95, 200⟩ 180 18 18 = .error .invalidInput ∧
    QiblaBearingCalculator.bearing ⟨95, 200⟩ = .error .invalidInput :=
  C4_out_of_range_coordinate_rejected ⟨95, 200⟩ (by norm_num [Coordinate.Valid])
    ⟨2024, 1, 1⟩ 180 18 18

/-- C5: the Kaaba's own coordinate is inside the valid latitude and longitude
ranges, yet GetQiblaBearing rejects it with InvalidInputError because the
bearing is degenerate there. -/
theorem C5_kaaba_coordinate_degenerate :
    kaaba.Valid ∧ QiblaBearingCalculator.bearing kaaba = .error .invalidInput := by
  refine ⟨by norm_num [Coordinate.Valid, kaaba], ?_⟩
  unfold QiblaBearingCalculator.bearing
  rw [if_pos (by norm_num [Coordinate.Valid, kaaba]), if_pos rfl]

/-- C3 fails as stated: the Kaaba coordinate is range-valid, yet the bearing
operation does not return the bearing formula value there. -/
theorem C3_kaaba_counterexample :
    kaaba.Valid ∧ QiblaBearingCalculator.bearing kaaba ≠ .ok (bearingValue kaaba) := by
  refine ⟨by norm_num [Coordinate.Valid, kaaba], ?_⟩
  unfold QiblaBearingCalculator.bearing
  rw [if_pos (by norm_num [Coordinate.Valid, kaaba]), if_pos rfl]
  intro h
  exact Except.noConfusion h

/-- C3 (amended): for every valid coordinate other than the Kaaba itself, the
bearing operation returns the great-circle initial bearing
atan2 (sin dLon * cos lat2, cos lat1 * sin lat2 - sin lat1 * cos lat2 * cos dLon)
normalized by (theta * 180 / pi + 360) mod 360, and the value lies in
[0, 360). -/
theorem C3_bearing_formula_and_range (c : Coordinate) (hv : c.Valid) (hk : c ≠ kaaba) :
    QiblaBearingCalculator.bearing c = .ok (bearingValue c) ∧
    bearingValue c = jsMod (bearingTheta c * 180 / π + 360) 360 ∧
    0 ≤ bearingValue c ∧ bearingValue c < 360 := by
  have hr := jsMod_mem_Ico (bearingTheta c * 180 / π + 360) 360 (by norm_num)
  refine ⟨?_, rfl, hr.1, hr.2⟩
  unfold QiblaBearingCalculator.bearing
  rw [if_pos hv, if_neg hk]

/-- Witness for C3 at Erbil. -/
theorem C3_bearing_formula_and_range_witness :
    QiblaBearingCalculator.bearing ⟨36.19, 44.01⟩ = .ok (bearingValue ⟨36.19, 44.01⟩) ∧
    bearingValue ⟨36.19, 44.01⟩ = jsMod (bearingTheta ⟨36.19, 44.01⟩ * 180 / π + 360) 360 ∧
    0 ≤ bearingValue ⟨36.19, 44.01⟩ ∧ bearingValue ⟨36.19, 44.01⟩ < 360 :=
  C3_bearing_formula_and_range ⟨36.19, 44.01⟩ (by norm_num [Coordinate.Valid])
    (by norm_num [kaaba, Coordinate.mk.injEq])

/-- On the Kaaba's meridian the longitude difference vanishes. -/
theorem deltaLonRad_meridian (lat : ℚ) : deltaLonRad ⟨lat, 39.8262⟩ = 0 := by
  unfold deltaLonRad kaaba deg2rad
  norm_num

/-- On the Kaaba's meridian the bearing angle is the argument of the real
number sin ((21.4225 - lat) * pi / 180). -/
theorem bearingTheta_meridian (lat : ℚ) :
    bearingTheta ⟨lat, 39.8262⟩ =
      Complex.arg ⟨sin (((21.4225 : ℝ) - (lat : ℝ)) * (π / 180)), 0⟩ := by
  unfold bearingTheta atan2
  have him : sin (deltaLonRad ⟨lat, 39.8262⟩) * cos (latRad kaaba) = 0 := by
    rw [deltaLonRad_meridian lat, Real.sin_zero, zero_mul]
  have h1 : latRad kaaba - latRad ⟨lat, 39.8262⟩ =
      ((21.4225 : ℝ) - (lat : ℝ)) * (π / 180) := by
    simp only [latRad, kaaba, deg2rad]
    rw [Rat.cast_ofScientific]
    ring
  have hre : cos (latRad ⟨lat, 39.8262⟩) * sin (latRad kaaba) -
      sin (latRad ⟨lat, 39.8262⟩) * cos (latRad kaaba) * cos (deltaLonRad ⟨lat, 39.8262⟩) =
      sin (((21.4225 : ℝ) - (lat : ℝ)) * (π / 180)) := by
    rw [deltaLonRad_meridian lat, Real.cos_zero, mul_one, ← h1, Real.sin_sub]
    ring
  rw [him, hre]

/-- C6: a point exactly north of Mecca on the Kaaba's meridian has bearing
exactly 180 degrees; a point exactly south has bearing exactly 0 degrees. -/
theorem C6_meridian_bearings :
    (∀ lat : ℚ, 21.4225 < lat → lat ≤ 90 →
      QiblaBearingCalculator.bearing ⟨lat, 39.8262⟩ = .ok 180) ∧
    (∀ lat : ℚ, -90 ≤ lat → lat < 21.4225 →
      QiblaBearingCalculator.bearing ⟨lat, 39.8262⟩ = .ok 0) := by
  have hpi180 : (0 : ℝ) < π / 180 := by positivity
  constructor
  · intro lat hgt hle
    have hgt' : (21.4225 : ℝ) < (lat : ℝ) := by
      have h2 : ((21.4225 : ℚ) : ℝ) < (lat : ℝ) := by exact_mod_cast hgt
      rwa [Rat.cast_ofScientific] at h2
    have hle' : (lat : ℝ) ≤ 90 := by exact_mod_cast hle
    have hneg : ((21.4225 : ℝ) - (lat : ℝ)) * (π / 180) < 0 :=
      mul_neg_of_neg_of_pos (by linarith) hpi180
    have hgtpi : -π < ((21.4225 : ℝ) - (lat : ℝ)) * (π / 180) := by
      have h1 : (-180 : ℝ) < (21.4225 : ℝ) - (lat : ℝ) := by linarith
      have h2 := mul_lt_mul_of_pos_right h1 hpi180
      have h3 : (-180 : ℝ) * (π / 180) = -π := by ring
      linarith
    have htheta : bearingTheta ⟨lat, 39.8262⟩ = π := by
      rw [bearingTheta_meridian lat]
      exact Complex.arg_eq_pi_iff.mpr
        ⟨Real.sin_neg_of_neg_of_neg_pi_lt hneg hgtpi, rfl⟩
    have hval : bearingValue ⟨lat, 39.8262⟩ = 180 := by
      unfold bearingValue
      rw [htheta]
      have h1 : π * 180 / π + 360 = 540 := by
        rw [mul_comm, mul_div_assoc, div_self Real.pi_ne_zero, mul_one]
        norm_num
      rw [h1]
      unfold jsMod
      have h2 : ⌊(540 : ℝ) / 360⌋ = 1 := by
        rw [Int.floor_eq_iff]
        constructor <;> norm_num
      rw [h2]
      norm_num
    have hvalid : Coordinate.Valid ⟨lat, 39.8262⟩ :=
      ⟨le_of_lt (lt_trans (by norm_num) hgt), hle, by norm_num, by norm_num⟩
    have hne : (⟨lat, 39.8262⟩ : Coordinate) ≠ kaaba := by
      intro h
      exact absurd (congrArg Coordinate.latitude h) (ne_of_gt hgt)
    unfold QiblaBearingCalculator.bearing
    rw [if_pos hvalid, if_neg hne, hval]
  · intro lat hge hlt
    have hlt' : (lat : ℝ) < (21.4225 : ℝ) := by
      have h2 : (lat : ℝ) < ((21.4225 : ℚ) : ℝ) := by exact_mod_cast hlt
      rwa [Rat.cast_ofScientific] at h2
    have hge' : (-90 : ℝ) ≤ (lat : ℝ) := by exact_mod_cast hge
    have hpos : 0 < ((21.4225 : ℝ) - (lat : ℝ)) * (π / 180) :=
      mul_pos (by linarith) hpi180
    have hltpi : ((21.4225 : ℝ) - (lat : ℝ)) * (π / 180) < π := by
      have h1 : (21.4225 : ℝ) - (lat : ℝ) < 180 := by linarith
      have h2 := mul_lt_mul_of_pos_right h1 hpi180
      have h3 : (180 : ℝ) * (π / 180) = π := by ring
      linarith
    have htheta : bearingTheta ⟨lat, 39.8262⟩ = 0 := by
      rw [bearingTheta_meridian lat]
      exact Complex.arg_eq_zero_iff.mpr
        ⟨(Real.sin_pos_of_pos_of_lt_pi hpos hltpi).le, rfl⟩
    have hval : bearingValue ⟨lat, 39.8262⟩ = 0 := by
      unfold bearingValue
      rw [htheta]
      have h1 : (0 : ℝ) * 180 / π + 360 = 360 := by
        rw [zero_mul, zero_div, zero_add]
      rw [h1]
      unfold jsMod
      have h2 : ⌊(360 : ℝ) / 360⌋ = 1 := by
        rw [Int.floor_eq_iff]
        constructor <;> norm_num
      rw [h2]
      norm_num
    have hvalid : Coordinate.Valid ⟨lat, 39.8262⟩ :=
      ⟨hge, le_of_lt (lt_trans hlt (by norm_num)), by norm_num, by norm_num⟩
    have hne : (⟨lat, 39.8262⟩ : Coordinate) ≠ kaaba := by
      intro h
      exact absurd (congrArg Coordinate.latitude h) (ne_of_lt hlt)
    unfold QiblaBearingCalculator.bearing
    rw [if_pos hvalid, if_neg hne, hval]

/-- Witness for C6 at latitude 36.19 on the Kaaba's meridian. -/
theorem C6_meridian_bearings_witness :
    QiblaBearingCalculator.bearing ⟨36.19, 39.8262⟩ = .ok 180 :=
  C6_meridian_bearings.1 36.19 (by norm_num) (by norm_num)

/-- C7: all three components are deterministic pure functions: identical
arguments always produce identical results. -/
theorem C7_components_deterministic :
    (∀ (d1 d2 : Date) (lon1 lon2 : ℚ), d1 = d2 → lon1 = lon2 →
      SolarPositionCalculator.compute d1 lon1 = SolarPositionCalculator.compute d2 lon2) ∧
    (∀ (d1 d2 : Date) (c1 c2 : Coordinate) (o1 o2 f1 f2 i1 i2 : ℚ),
      d1 = d2 → c1 = c2 → o1 = o2 → f1 = f2 → i1 = i2 →
      PrayerTimeDeriver.derive d1 c1 o1 f1 i1 = PrayerTimeDeriver.derive d2 c2 o2 f2 i2) ∧
    (∀ c1 c2 : Coordinate, c1 = c2 →
      QiblaBearingCalculator.bearing c1 = QiblaBearingCalculator.bearing c2) := by
  refine ⟨?_, ?_, ?_⟩
  · rintro d1 d2 lon1 lon2 rfl rfl; rfl
  · rintro d1 d2 c1 c2 o1 o2 f1 f2 i1 i2 rfl rfl rfl rfl rfl; rfl
  · rintro c1 c2 rfl; rfl

/-- Witness for C7 at a concrete coordinate. -/
theorem C7_components_deterministic_witness :
    QiblaBearingCalculator.bearing ⟨36.19, 44.01⟩ =
      QiblaBearingCalculator.bearing ⟨36.19, 44.01⟩ :=
  C7_components_deterministic.2.2 ⟨36.19, 44.01⟩ ⟨36.19, 44.01⟩ rfl

/-- C2: the classification returns the event with the greatest time not
exceeding the wall clock; before fajr it returns the previous day's isha
wraparound window; on the example schedule of the spec, 16:00 classifies as
asr and 03:00 as the wraparound isha case. -/
theorem C2_current_prayer_classifies_greatest :
    (∀ (s : ClockSchedule) (t : ℕ), s.Sorted → s.fajr ≤ t →
      IsGreatestEventLE s t (currentPrayer s t)) ∧
    (∀ (s : ClockSchedule) (t : ℕ), t < s.fajr → currentPrayer s t = "isha") ∧
    currentPrayer exampleSchedule 960 = "asr" ∧
    currentPrayer exampleSchedule 180 = "isha" := by
  refine ⟨?_, ?_, by decide, by decide⟩
  · intro s t hs ht
    obtain ⟨h1, h2, h3, h4, h5⟩ := hs
    unfold currentPrayer IsGreatestEventLE
    split_ifs with c1 c2 c3 c4 c5 c6
    · exact absurd ht (by omega)
    · exact ⟨s.fajr, by simp [ClockSchedule.events], by omega,
        events_bounded (by omega) (by omega) (by omega) (by omega) (by omega) (by omega)⟩
    · exact ⟨s.sunrise, by simp [ClockSchedule.events], by omega,
        events_bounded (by omega) (by omega) (by omega) (by omega) (by omega) (by omega)⟩
    · exact ⟨s.dhuhr, by simp [ClockSchedule.events], by omega,
        events_bounded (by omega) (by omega) (by omega) (by omega) (by omega) (by omega)⟩
    · exact ⟨s.asr, by simp [ClockSchedule.events], by omega,
        events_bounded (by omega) (by omega) (by omega) (by omega) (by omega) (by omega)⟩
    · exact ⟨s.maghrib, by simp [ClockSchedule.events], by omega,
        events_bounded (by omega) (by omega) (by omega) (by omega) (by omega) (by omega)⟩
    · exact ⟨s.isha, by simp [ClockSchedule.events], by omega,
        events_bounded (by omega) (by omega) (by omega) (by omega) (by omega) (by omega)⟩
  · intro s t h
    unfold currentPrayer
    rw [if_pos h]

/-- Witness for C2 on the example schedule at 16:00. -/
theorem C2_current_prayer_classifies_greatest_witness :
    IsGreatestEventLE exampleSchedule 960 (currentPrayer exampleSchedule 960) :=
  C2_current_prayer_classifies_greatest.1 exampleSchedule 960 (by decide) (by decide)

/-- C8: formatting a derived time (minutes of the day) to its localized
12-hour form and parsing it back reproduces the same minute value, for every
locale whose two markers are distinct. -/
theorem C8_twelve_hour_roundtrip (loc : Locale) (m : ℕ)
    (hm : m < 1440) (hloc : loc.amMarker ≠ loc.pmMarker) :
    parse12 loc (format12 loc m) = some m := by
  by_cases h : m / 60 < 12
  · have hmark : (format12 loc m).marker = loc.amMarker := by
      simp [format12, h]
    have hh : (format12 loc m).hour % 12 = m / 60 := by
      simp only [format12, to12Hour]
      by_cases h0 : m / 60 % 12 = 0
      · rw [if_pos h0]; omega
      · rw [if_neg h0]; omega
    have hmin : (format12 loc m).minute = m % 60 := rfl
    unfold parse12
    rw [hmark, if_pos rfl, hh, hmin]
    congr 1
    omega
  · have hmark : (format12 loc m).marker = loc.pmMarker := by
      simp [format12, h]
    have hh : (format12 loc m).hour % 12 = m / 60 - 12 := by
      simp only [format12, to12Hour]
      by_cases h0 : m / 60 % 12 = 0
      · rw [if_pos h0]; omega
      · rw [if_neg h0]; omega
    have hmin : (format12 loc m).minute = m % 60 := rfl
    unfold parse12
    rw [hmark, if_neg (Ne.symm hloc), if_pos rfl, hh, hmin]
    congr 1
    omega

/-- Witness for C8 at 16:00 with English markers. -/
theorem C8_twelve_hour_roundtrip_witness :
    parse12 ⟨"AM", "PM"⟩ (format12 ⟨"AM", "PM"⟩ 960) = some 960 :=
  C8_twelve_hour_roundtrip ⟨"AM", "PM"⟩ 960 (by decide) (by decide)

/-- C9: a language change re-runs fetchCities, and a successful cities
response clears the selected city, the prayer times and the qibla direction,
so no stale schedule or bearing survives a language switch. -/
theorem C9_language_change_clears_selection :
    FetchAction.cities ∈ effectsOnLanguageChange ∧
    ∀ (resp : CitiesResponse) (s : AppState),
      (fetchCitiesSuccess resp s).selectedCity = none ∧
      (fetchCitiesSuccess resp s).prayerTimes = none ∧
      (fetchCitiesSuccess resp s).qiblaDirection = none :=
  ⟨by decide, fun _ _ => ⟨rfl, rfl, rfl⟩⟩

/-- C10: fetchQuranVerses is invoked on no code path of the component, and
were it run, the undefined setQuranVerses identifier would throw a
ReferenceError that the surrounding try/catch only logs, leaving the component
state unchanged. -/
theorem C10_fetchQuranVerses_dead_and_inert :
    FetchAction.quranVerses ∉ invokedFetchActions ∧
    ∀ (resp : QuranVersesResponse) (s : AppState),
      (fetchQuranVersesRun resp s).1 = s ∧
      (fetchQuranVersesRun resp s).2 =
        ["Error fetching quran verses: ReferenceError: setQuranVerses is not defined"] := by
  refine ⟨by decide, fun resp s => ?_⟩
  unfold fetchQuranVersesRun fetchQuranVersesBody
  rw [if_neg (by decide)]
  exact ⟨rfl, rfl⟩

end BangApps
